import Mathlib

/-!
# Shallow embedding of the PhysioLOG-4 (PL4) driver decoding core

This file embeds the decoding core of `timeflux_pl4/nodes/driver.py`:
checksum validation (`PhysioLOGX.parse`), sample decoding, header
resynchronisation (`PhysioLOGX.read`), and the per-cycle update loop with
timestamp inference (`PhysioLOGX.update`).

Modelling conventions:
* Python byte strings become `List ℕ` (each element a byte value `< 256`;
  hypotheses state this where the value of a byte matters);
* Python's unbounded integers become `ℤ`;
* the floating-point ADC scale factors become exact rationals written with
  the same decimal digits as the source;
* `numpy.timedelta64`/timestamp arithmetic, which the source performs on
  whole nanoseconds, becomes `ℤ` nanosecond offsets relative to the epoch
  `time_start`;
* the fallible `parse` (which raises `InvalidChecksumException`, or an
  `IndexError` when the input has no byte at position 1) becomes an
  `Except ParseError` value, and the `read` resynchroniser (which returns
  `False` on failure) becomes an `Option`.
-/

namespace PL4

/-- Message header byte (`HEADER = 0xAA` in the source). -/
def HEADER : Nat := 0xAA

/-- Packet size in bytes (`PACKET_SIZE = 37` in the source). -/
def PACKET_SIZE : Nat := 37

/-- Big-endian accumulation of a byte string into an unsigned integer,
the core of Python's `int.from_bytes(bs, byteorder='big')`. -/
def fromBytesUnsigned (bs : List Nat) : Nat :=
  bs.foldl (fun a b => a * 256 + b) 0

/-- Python's `int.from_bytes(bs, byteorder='big', signed=True)`:
big-endian two's complement.  The sign is taken from the top bit of the
first byte (for genuine bytes `b < 256` the test `128 ≤ b` is exactly
that bit), and the empty string decodes to `0`. -/
def fromBytesSigned (bs : List Nat) : Int :=
  match bs with
  | [] => 0
  | b :: _ =>
      if 128 ≤ b then (fromBytesUnsigned bs : Int) - (256 : Int) ^ bs.length
      else (fromBytesUnsigned bs : Int)

/-- The checksum accumulator of `PhysioLOGX.parse`:
`checksum = 0; for byte in data: checksum += byte`. -/
def checksum (data : List Nat) : Nat :=
  data.foldl (fun acc b => acc + b) 0

/-- The ways `parse` can raise: `InvalidChecksumException` on a bad
checksum, or Python's `IndexError` from evaluating `data[1]` when the
input has fewer than two bytes. -/
inductive ParseError where
  | invalidChecksum
  | indexError
deriving DecidableEq, Repr

/-- The `samples` dictionary built by `parse`: one growing list of
calibrated values per channel key `'1'`..`'4'`. -/
structure Samples where
  s1 : List ℚ
  s2 : List ℚ
  s3 : List ℚ
  s4 : List ℚ
deriving DecidableEq, Repr

/-- `samples[channel].append(v)` for a channel key in `{1, 2, 3, 4}`. -/
def appendSample (s : Samples) (channel : Nat) (v : ℚ) : Samples :=
  match channel with
  | 1 => { s with s1 := s.s1 ++ [v] }
  | 2 => { s with s2 := s.s2 ++ [v] }
  | 3 => { s with s3 := s.s3 ++ [v] }
  | _ => { s with s4 := s.s4 ++ [v] }

/-- The fixed slot-to-channel table of `parse`:
`channels = ['1', '2', '3', '1', '2', '1', '2', '4', '1', '2']`. -/
def channels : List Nat := [1, 2, 3, 1, 2, 1, 2, 4, 1, 2]

/-- The ADC scale table of `parse`, as exact rationals:
`adc = {'1': -0.01184481006, '2': -0.01184481006,
'3': -0.000244140625, '4': -0.000244140625}`. -/
def adc (channel : Nat) : ℚ :=
  match channel with
  | 1 => -(1184481006 : ℚ) / 100000000000
  | 2 => -(1184481006 : ℚ) / 100000000000
  | 3 => -(244140625 : ℚ) / 1000000000000
  | _ => -(244140625 : ℚ) / 1000000000000

/-- `PhysioLOGX.parse`.  Validates the byte-sum checksum modulo 256
(raising `InvalidChecksumException` otherwise), reads the rolling counter
from `data[1]` (an `IndexError` if absent), then decodes the ten 3-byte
slots `data[start:stop]` with `start = 2*index + index + 2` and
`stop = start + 3`, appending each signed big-endian value times the
channel's ADC factor to that channel's sample list.  Python slicing never
fails: a slice past the end is simply truncated or empty, which
`List.drop/take` reproduce. -/
def parse (data : List Nat) : Except ParseError (Nat × Samples) :=
  if checksum data % 256 ≠ 0 then .error .invalidChecksum
  else
    match data[1]? with
    | none => .error .indexError
    | some counter =>
        let samples := channels.enum.foldl
          (fun s ic =>
            appendSample s ic.2
              ((fromBytesSigned ((data.drop (2 * ic.1 + ic.1 + 2)).take 3)) * adc ic.2))
          ⟨[], [], [], []⟩
        .ok (counter, samples)

/-- `PhysioLOGX.read`, acting on the device byte stream.  It pulls
`PACKET_SIZE` bytes; if the first is the header it returns them as the
frame.  Otherwise it scans for the first header byte and, at offset
`index`, returns `data[index:]` completed with `index` freshly pulled
bytes.  With no header byte anywhere it returns `False` (here `none`).
The result pairs the returned frame with the unread remainder of the
stream.  (On a genuinely empty read Python's `data[0]` would raise; the
model returns failure there, a case no theorem below exercises.) -/
def read (stream : List Nat) : Option (List Nat) × List Nat :=
  let data := stream.take PACKET_SIZE
  let rest := stream.drop PACKET_SIZE
  match data with
  | [] => (none, rest)
  | b :: _ =>
      if b = HEADER then (some data, rest)
      else
        match data.findIdx? (fun byte => byte = HEADER) with
        | some index => (some (data.drop index ++ rest.take index), rest.drop index)
        | none => (none, rest)

/-- Nanoseconds per 1024 Hz sample:
`np.timedelta64(int(1e9 / 1024), 'ns')`.  Note `1e9 / 1024 = 976562.5`
exactly, so `int` truncates to `976562`. -/
def delta1024 : Int := ((1000000000 : Nat) / 1024 : Nat)

/-- Nanoseconds per 256 Hz sample: `np.timedelta64(int(1e9 / 256), 'ns')`
(`1e9 / 256 = 3906250` exactly). -/
def delta256 : Int := ((1000000000 : Nat) / 256 : Nat)

/-- `np.arange(start, stop, step)` on nanosecond timestamps, for a
positive step: `⌈(stop - start) / step⌉` points `start + i * step`. -/
def arange (start stop step : Int) : List Int :=
  if 0 < step then
    (List.range (((stop - start) + step - 1) / step).toNat).map
      (fun i : Nat => start + step * (i : Int))
  else []

/-- The driver state the update loop mutates: `packet_count` and the epoch
`time_start` (nanoseconds). -/
structure NodeState where
  packet_count : Nat
  time_start : Int
deriving DecidableEq, Repr

/-- The per-cycle `data` container of `PhysioLOGX.update`: the `'1024Hz'`
entry (counter, channels 1 and 2, timestamp index) and the `'256Hz'` entry
(counter, channels 3 and 4, timestamp index). -/
structure CycleData where
  counter1024 : List Nat
  ch1 : List ℚ
  ch2 : List ℚ
  index1024 : List Int
  counter256 : List Nat
  ch3 : List ℚ
  ch4 : List ℚ
  index256 : List Int
deriving DecidableEq, Repr

/-- The empty `data` container built at the top of `update`. -/
def emptyData : CycleData := ⟨[], [], [], [], [], [], [], []⟩

/-- The body of `update`'s `try` block for one packet: parse it, and on
success append the counter (four times at 1024 Hz, once at 256 Hz), the
samples, and the inferred timestamps, then step `packet_count`.  On
`InvalidChecksumException` (`except ... : pass`) nothing is appended.
Mirrors the source's evaluation order: the appends use `parse`'s result,
`packet_count` is incremented before the timestamps are computed. -/
def processPacket (st : NodeState) (d : CycleData) (packet : List Nat) :
    NodeState × CycleData :=
  match parse packet with
  | .error _ => (st, d)
  | .ok (counter, samples) =>
      let pc := st.packet_count + 1
      let start256 := st.time_start + delta256 * pc
      let start1024 := st.time_start + delta1024 * pc * 4
      let stop1024 := start1024 + delta1024 * 4
      ({ st with packet_count := pc },
       { counter1024 := d.counter1024 ++ List.replicate 4 counter
         ch1 := d.ch1 ++ samples.s1
         ch2 := d.ch2 ++ samples.s2
         index1024 := d.index1024 ++ arange start1024 stop1024 delta1024
         counter256 := d.counter256 ++ [counter]
         ch3 := d.ch3 ++ samples.s3
         ch4 := d.ch4 ++ samples.s4
         index256 := d.index256 ++ [start256] })

/-- The `for i in range(ceil(queue / PACKET_SIZE))` loop of `update`:
each iteration reads one frame from the stream (`self.read()`), skips it
when `read` failed (`if packet:`), and otherwise feeds it to the parse-
and-append block. -/
def updateLoop : Nat → NodeState → CycleData → List Nat → NodeState × CycleData
  | 0, st, d, _ => (st, d)
  | n + 1, st, d, stream =>
      match read stream with
      | (none, rest) => updateLoop n st d rest
      | (some packet, rest) =>
          let p := processPacket st d packet
          updateLoop n p.1 p.2 rest

/-- `PhysioLOGX.update` for one processing cycle: `queue` bytes are
available, the loop runs `ceil(queue / PACKET_SIZE)` times, and at the end
both ports are set together iff the 1024 Hz index is non-empty
(`if len(data['1024Hz']['index']) > 0`).  `some d` models the single
joint emission of both batches; `none` models no emission. -/
def update (st : NodeState) (stream : List Nat) : NodeState × Option CycleData :=
  let queue := stream.length
  let r := updateLoop ((queue + PACKET_SIZE - 1) / PACKET_SIZE) st emptyData stream
  if 0 < r.2.index1024.length then (r.1, some r.2) else (r.1, none)

/-! ## Derived descriptions used to state the claims -/

/-- Raw signed value of sample slot `i`: the 3 bytes at offset `3*i + 2`
(the spec's slot layout). -/
def slotValue (data : List Nat) (i : Nat) : Int :=
  fromBytesSigned ((data.drop (3 * i + 2)).take 3)

/-- Modelled from the spec: 3-byte big-endian two's-complement encoding of
an in-range signed integer (the inverse of a sample-slot read; the source
has no encoder for data frames). -/
def toBytes3 (v : Int) : List Nat :=
  let u := (v % 16777216).toNat
  [u / 65536 % 256, u / 256 % 256, u % 256]

/-- Modelled from the spec: build a synthetic 37-byte frame from a counter
and four raw channel values, following the wire layout — header, counter,
the ten 3-byte slots in channel order `1,2,3,1,2,1,2,4,1,2` carrying
`v1..v4`, three padding bytes, and a final checksum byte bringing the byte
sum to `0` modulo 256. -/
def encodeFrame (c : Nat) (v1 v2 v3 v4 : Int) : List Nat :=
  let body := [HEADER, c] ++ toBytes3 v1 ++ toBytes3 v2 ++ toBytes3 v3 ++
    toBytes3 v1 ++ toBytes3 v2 ++ toBytes3 v1 ++ toBytes3 v2 ++
    toBytes3 v4 ++ toBytes3 v1 ++ toBytes3 v2 ++ [0, 0, 0]
  body ++ [0, (256 - checksum body % 256) % 256]

/-- The packets a frame list successfully decodes to, in order. -/
def oks (frames : List (List Nat)) : List (Nat × Samples) :=
  frames.filterMap (fun f => (parse f).toOption)

/-- The four 1024 Hz timestamps inferred for the `pc`-th packet since
acquisition start (epoch `t`). -/
def hi4 (t : Int) (pc : Nat) : List Int :=
  (List.range 4).map (fun i : Nat => t + delta1024 * pc * 4 + delta1024 * (i : Int))

/-- The 256 Hz timestamp inferred for the `pc`-th packet since acquisition
start (epoch `t`). -/
def lo1 (t : Int) (pc : Nat) : Int := t + delta256 * pc

/-- What one decoded packet contributes to the cycle's containers when it
is the `pc`-th packet since acquisition start. -/
def pkt (t : Int) (pc : Nat) (p : Nat × Samples) : CycleData :=
  { counter1024 := List.replicate 4 p.1
    ch1 := p.2.s1
    ch2 := p.2.s2
    index1024 := hi4 t pc
    counter256 := [p.1]
    ch3 := p.2.s3
    ch4 := p.2.s4
    index256 := [lo1 t pc] }

/-- Field-wise concatenation of two cycle containers. -/
def appendData (d e : CycleData) : CycleData :=
  { counter1024 := d.counter1024 ++ e.counter1024
    ch1 := d.ch1 ++ e.ch1
    ch2 := d.ch2 ++ e.ch2
    index1024 := d.index1024 ++ e.index1024
    counter256 := d.counter256 ++ e.counter256
    ch3 := d.ch3 ++ e.ch3
    ch4 := d.ch4 ++ e.ch4
    index256 := d.index256 ++ e.index256 }

/-- The containers accumulated by a run of decoded packets `ps` starting
from packet count `pc`. -/
def accum (t : Int) (pc : Nat) (ps : List (Nat × Samples)) : CycleData :=
  { counter1024 := ps.flatMap (fun p => List.replicate 4 p.1)
    ch1 := ps.flatMap (fun p => p.2.s1)
    ch2 := ps.flatMap (fun p => p.2.s2)
    index1024 := (List.range ps.length).flatMap (fun j => hi4 t (pc + j + 1))
    counter256 := ps.map (fun p => p.1)
    ch3 := ps.flatMap (fun p => p.2.s3)
    ch4 := ps.flatMap (fun p => p.2.s4)
    index256 := (List.range ps.length).map (fun j => lo1 t (pc + j + 1)) }

/-! ## Helper lemmas -/

lemma toBytes3_bytes (v : Int) : ∀ b ∈ toBytes3 v, b < 256 := by
  intro b hb
  simp only [toBytes3, List.mem_cons, List.not_mem_nil, or_false] at hb
  rcases hb with rfl | rfl | rfl <;> omega

lemma fromBytesSigned_toBytes3 (v : Int)
    (h1 : -(2 ^ 23) ≤ v) (h2 : v < 2 ^ 23) :
    fromBytesSigned (toBytes3 v) = v := by
  simp only [toBytes3, fromBytesSigned, fromBytesUnsigned, List.foldl,
    List.length_cons, List.length_nil]
  split <;> push_cast <;> omega

lemma parse_eq_ok (data : List Nat) (c : Nat)
    (hcs : checksum data % 256 = 0) (h1 : data[1]? = some c) :
    parse data = .ok (c,
      ⟨[slotValue data 0 * adc 1, slotValue data 3 * adc 1,
        slotValue data 5 * adc 1, slotValue data 8 * adc 1],
       [slotValue data 1 * adc 2, slotValue data 4 * adc 2,
        slotValue data 6 * adc 2, slotValue data 9 * adc 2],
       [slotValue data 2 * adc 3],
       [slotValue data 7 * adc 4]⟩) := by
  simp only [parse, hcs, ne_eq, not_true_eq_false, if_false, h1, channels,
    List.enum, List.enumFrom, List.foldl, appendSample, slotValue]
  norm_num

lemma read_frame (f r : List Nat) (h37 : f.length = PACKET_SIZE)
    (hh : f.headD 0 = HEADER) :
    read (f ++ r) = (some f, r) := by
  match f, h37 with
  | b :: t, h37 =>
    rw [read]
    have ht : (b :: t).length = PACKET_SIZE := h37
    simp only [List.take_left' ht, List.drop_left' ht]
    simp only [List.headD_cons] at hh
    simp [hh, HEADER]

lemma delta1024_eq : delta1024 = 976562 := by decide
lemma delta256_eq : delta256 = 3906250 := by decide

lemma arange_four (s : Int) :
    arange s (s + delta1024 * 4) delta1024 =
      (List.range 4).map (fun i : Nat => s + delta1024 * (i : Int)) := by
  have h1 : s + delta1024 * 4 - s + delta1024 - 1 = 4882809 := by
    rw [delta1024_eq]; ring
  have h2 : ((4882809 : Int) / 976562).toNat = 4 := by decide
  rw [arange, if_pos (by rw [delta1024_eq]; norm_num), h1, delta1024_eq, h2]

lemma appendData_assoc (a b c : CycleData) :
    appendData (appendData a b) c = appendData a (appendData b c) := by
  simp [appendData, List.append_assoc]

lemma appendData_empty (d : CycleData) : appendData d emptyData = d := by
  simp [appendData, emptyData]

lemma empty_appendData (d : CycleData) : appendData emptyData d = d := by
  simp [appendData, emptyData]

lemma processPacket_error (st : NodeState) (d : CycleData) (f : List Nat)
    (e : ParseError) (hp : parse f = .error e) :
    processPacket st d f = (st, d) := by
  simp [processPacket, hp]

lemma processPacket_ok (st : NodeState) (d : CycleData) (f : List Nat)
    (p : Nat × Samples) (hp : parse f = .ok p) :
    processPacket st d f =
      ({ st with packet_count := st.packet_count + 1 },
       appendData d (pkt st.time_start (st.packet_count + 1) p)) := by
  simp only [processPacket, hp]
  rw [arange_four]
  simp [appendData, pkt, hi4, lo1]

lemma oks_cons_error (f : List Nat) (fs : List (List Nat)) (e : ParseError)
    (hp : parse f = .error e) : oks (f :: fs) = oks fs := by
  simp [oks, hp, Except.toOption]

lemma oks_cons_ok (f : List Nat) (fs : List (List Nat)) (p : Nat × Samples)
    (hp : parse f = .ok p) : oks (f :: fs) = p :: oks fs := by
  simp [oks, hp, Except.toOption]

lemma accum_cons (t : Int) (pc : Nat) (p : Nat × Samples)
    (ps : List (Nat × Samples)) :
    accum t pc (p :: ps) = appendData (pkt t (pc + 1) p) (accum t (pc + 1) ps) := by
  have hlam : (fun a => hi4 t (pc + (a + 1) + 1)) = (fun a => hi4 t (pc + 1 + a + 1)) := by
    funext a; congr 1; omega
  simp only [accum, pkt, appendData, List.flatMap_cons, List.map_cons,
    List.length_cons, List.range_succ_eq_map, List.flatMap_map, List.map_map]
  simp [Function.comp, Nat.succ_eq_add_one, hlam]
  intro a _
  congr 1
  omega

lemma foldl_processPacket (frames : List (List Nat)) : ∀ (st : NodeState) (d : CycleData),
    frames.foldl (fun p f => processPacket p.1 p.2 f) (st, d) =
      ({ st with packet_count := st.packet_count + (oks frames).length },
       appendData d (accum st.time_start st.packet_count (oks frames))) := by
  induction frames with
  | nil =>
      intro st d
      simp [oks, accum, appendData]
  | cons f fs ih =>
      intro st d
      rw [List.foldl_cons]
      match hp : parse f with
      | .error e =>
          rw [processPacket_error st d f e hp]
          rw [ih st d]
          rw [oks_cons_error f fs e hp]
      | .ok p =>
          rw [processPacket_ok st d f p hp]
          rw [ih]
          rw [oks_cons_ok f fs p hp, accum_cons, ← appendData_assoc]
          simp [Nat.add_assoc, Nat.add_comm 1]



lemma updateLoop_frames (frames : List (List Nat)) :
    ∀ (st : NodeState) (d : CycleData),
    (∀ f ∈ frames, f.length = PACKET_SIZE ∧ f.headD 0 = HEADER) →
    updateLoop frames.length st d frames.flatten =
      frames.foldl (fun p f => processPacket p.1 p.2 f) (st, d) := by
  induction frames with
  | nil => intro st d _; rfl
  | cons f fs ih =>
      intro st d h
      have hf := h f (List.mem_cons_self f fs)
      rw [List.length_cons, List.flatten_cons, updateLoop,
        read_frame f fs.flatten hf.1 hf.2]
      show updateLoop fs.length (processPacket st d f).1 (processPacket st d f).2
        fs.flatten = _
      rw [ih _ _ (fun g hg => h g (List.mem_cons_of_mem f hg))]
      rw [List.foldl_cons]

lemma flatten_length_frames (frames : List (List Nat))
    (h : ∀ f ∈ frames, f.length = PACKET_SIZE) :
    frames.flatten.length = PACKET_SIZE * frames.length := by
  induction frames with
  | nil => simp
  | cons f fs ih =>
      rw [List.flatten_cons, List.length_append,
        ih (fun g hg => h g (List.mem_cons_of_mem f hg)),
        h f (List.mem_cons_self f fs), List.length_cons]
      ring

lemma hi4_length (t : Int) (pc : Nat) : (hi4 t pc).length = 4 := by
  rw [hi4, List.length_map, List.length_range]

lemma accum_index1024_length (t : Int) (pc : Nat) (ps : List (Nat × Samples)) :
    (accum t pc ps).index1024.length = 4 * ps.length := by
  simp only [accum]
  rw [List.length_flatMap]
  rw [show (List.length ∘ fun j => hi4 t (pc + j + 1)) = fun _ : Nat => 4 from
    funext (fun j => hi4_length t (pc + j + 1))]
  rw [List.map_const', List.length_range, List.sum_replicate, smul_eq_mul, mul_comm]

lemma accum_index256_length (t : Int) (pc : Nat) (ps : List (Nat × Samples)) :
    (accum t pc ps).index256.length = ps.length := by
  simp [accum]

lemma update_frames (st : NodeState) (frames : List (List Nat))
    (h : ∀ f ∈ frames, f.length = PACKET_SIZE ∧ f.headD 0 = HEADER) :
    update st frames.flatten =
      ({ st with packet_count := st.packet_count + (oks frames).length },
       if (oks frames).length = 0 then none
       else some (accum st.time_start st.packet_count (oks frames))) := by
  have hlen : frames.flatten.length = PACKET_SIZE * frames.length :=
    flatten_length_frames frames (fun f hf => (h f hf).1)
  have hceil : (frames.flatten.length + PACKET_SIZE - 1) / PACKET_SIZE = frames.length := by
    rw [hlen]; show (37 * frames.length + 37 - 1) / 37 = frames.length; omega
  rw [update]
  simp only [hceil]
  rw [updateLoop_frames frames st emptyData h, foldl_processPacket, empty_appendData]
  by_cases hk : (oks frames).length = 0
  · rw [if_neg, if_pos hk]
    simp [accum_index1024_length, hk]
  · rw [if_pos, if_neg hk]
    simp [accum_index1024_length]
    omega


/-- A concrete checksum-valid frame: header, counter 0, all sample bytes
zero, final checksum byte `0x56` (`0xAA + 0x56 = 0x100`). -/
def goodFrame : List Nat := 170 :: (List.replicate 35 0 ++ [86])

/-- A second checksum-valid frame with counter 7. -/
def goodFrame7 : List Nat := 170 :: 7 :: (List.replicate 34 0 ++ [79])

/-- A header-aligned 37-byte frame whose byte sum is not 0 mod 256. -/
def badFrame : List Nat := 170 :: List.replicate 36 0

/-- A 37-byte window containing no header byte. -/
def noHeaderWindow : List Nat := List.replicate 37 1

/-- A checksum-valid frame agreeing with `goodFrame` on bytes 0..31 but
differing in the tail bytes 32..36. -/
def goodFrameAlt : List Nat := 170 :: (List.replicate 34 0 ++ [86, 0])

lemma checksum_eq_sum (data : List Nat) : checksum data = data.sum := by
  rw [checksum, List.sum_eq_foldl]

/-- C1: for every checksum-valid 37-byte frame, `parse` returns the
rolling counter read from byte 1 and the ten sample slots, slot `i` being
the 3 bytes at offsets `3*i+2 .. 3*i+5` read as a big-endian
two's-complement signed integer; the slots are assigned to the channels in
the fixed order `1,2,3,1,2,1,2,4,1,2` (channels 1 and 2 get the four
slots 0,3,5,8 resp. 1,4,6,9 in slot order, channel 3 slot 2, channel 4
slot 7), and each raw value is scaled by `-0.01184481006` for channels 1
and 2 and `-0.000244140625` for channels 3 and 4. -/
theorem parse_decodes_fixed_layout_and_scales (data : List Nat)
    (h37 : data.length = 37) (hcs : data.sum % 256 = 0) :
    parse data = .ok (data.getD 1 0,
      { s1 := [(slotValue data 0 : ℚ) * (-(1184481006 : ℚ) / 100000000000),
               (slotValue data 3 : ℚ) * (-(1184481006 : ℚ) / 100000000000),
               (slotValue data 5 : ℚ) * (-(1184481006 : ℚ) / 100000000000),
               (slotValue data 8 : ℚ) * (-(1184481006 : ℚ) / 100000000000)],
        s2 := [(slotValue data 1 : ℚ) * (-(1184481006 : ℚ) / 100000000000),
               (slotValue data 4 : ℚ) * (-(1184481006 : ℚ) / 100000000000),
               (slotValue data 6 : ℚ) * (-(1184481006 : ℚ) / 100000000000),
               (slotValue data 9 : ℚ) * (-(1184481006 : ℚ) / 100000000000)],
        s3 := [(slotValue data 2 : ℚ) * (-(244140625 : ℚ) / 1000000000000)],
        s4 := [(slotValue data 7 : ℚ) * (-(244140625 : ℚ) / 1000000000000)] }) := by
  have hlt : 1 < data.length := by omega
  have h1 : data[1]? = some (data.getD 1 0) := by
    rw [List.getElem?_eq_getElem hlt, List.getD_eq_getElem data 0 hlt]
  rw [parse_eq_ok data (data.getD 1 0) (by rw [checksum_eq_sum]; exact hcs) h1]
  norm_num [adc]

/-- Witness for C1 at the concrete frame `goodFrame`. -/
theorem parse_decodes_fixed_layout_and_scales_witness :
    (goodFrame.length = 37 ∧ goodFrame.sum % 256 = 0) ∧
    parse goodFrame = .ok (goodFrame.getD 1 0,
      { s1 := [(slotValue goodFrame 0 : ℚ) * (-(1184481006 : ℚ) / 100000000000),
               (slotValue goodFrame 3 : ℚ) * (-(1184481006 : ℚ) / 100000000000),
               (slotValue goodFrame 5 : ℚ) * (-(1184481006 : ℚ) / 100000000000),
               (slotValue goodFrame 8 : ℚ) * (-(1184481006 : ℚ) / 100000000000)],
        s2 := [(slotValue goodFrame 1 : ℚ) * (-(1184481006 : ℚ) / 100000000000),
               (slotValue goodFrame 4 : ℚ) * (-(1184481006 : ℚ) / 100000000000),
               (slotValue goodFrame 6 : ℚ) * (-(1184481006 : ℚ) / 100000000000),
               (slotValue goodFrame 9 : ℚ) * (-(1184481006 : ℚ) / 100000000000)],
        s3 := [(slotValue goodFrame 2 : ℚ) * (-(244140625 : ℚ) / 1000000000000)],
        s4 := [(slotValue goodFrame 7 : ℚ) * (-(244140625 : ℚ) / 1000000000000)] }) :=
  ⟨⟨by decide, by decide⟩,
   parse_decodes_fixed_layout_and_scales goodFrame (by decide) (by decide)⟩


/-- C9 counterexample: the code has no frame-length check.  The 2-byte
input `[0, 0]` is shorter than 37 bytes, yet `parse` succeeds on it
(there is no `FrameLengthError` anywhere in the code), refuting the claim
that every short input fails with a `FrameLengthError`. -/
theorem short_input_parses_counterexample :
    ([0, 0] : List Nat).length < 37 ∧ (parse [0, 0]).toOption.isSome = true :=
  ⟨by decide, by decide⟩

/-- C9 amended: `parse` never checks the length.  On an input shorter
than 37 bytes whose byte sum is 0 mod 256, it still succeeds whenever the
input has at least 2 bytes (slots beyond the data decode as `0` from the
truncated or empty slices), and raises an `IndexError` (not any
`FrameLengthError`) at the counter read `data[1]` when it has fewer than
2 bytes. -/
theorem short_input_no_length_error (data : List Nat)
    (hshort : data.length < 37) (hcs : data.sum % 256 = 0) :
    (2 ≤ data.length → (parse data).toOption.isSome = true) ∧
    (data.length < 2 → parse data = .error .indexError) ∧
    (∀ i, data.length ≤ 3 * i + 2 → slotValue data i = 0) := by
  have hc : checksum data % 256 = 0 := by rw [checksum_eq_sum]; exact hcs
  refine ⟨?_, ?_, ?_⟩
  · intro h2
    have h1 : data[1]? = some (data.getD 1 0) := by
      rw [List.getElem?_eq_getElem (by omega), List.getD_eq_getElem data 0 (by omega)]
    rw [parse_eq_ok data (data.getD 1 0) hc h1]
    rfl
  · intro h2
    have h1 : data[1]? = none := by
      rw [List.getElem?_eq_none]; omega
    rw [parse, if_neg (by simp [hc]), h1]
  · intro i hi
    rw [slotValue, List.drop_eq_nil_of_le (by omega), List.take_nil]
    rfl

/-- Witness for the amended C9 at the short input `[0, 0]`. -/
theorem short_input_no_length_error_witness :
    (([0, 0] : List Nat).length < 37 ∧ ([0, 0] : List Nat).sum % 256 = 0) ∧
    ((2 ≤ ([0, 0] : List Nat).length →
        (parse [0, 0]).toOption.isSome = true) ∧
     (([0, 0] : List Nat).length < 2 → parse [0, 0] = .error .indexError) ∧
     (∀ i, ([0, 0] : List Nat).length ≤ 3 * i + 2 → slotValue [0, 0] i = 0)) :=
  ⟨⟨by decide, by decide⟩, short_input_no_length_error [0, 0] (by decide) (by decide)⟩

/-- C10: for two checksum-valid 37-byte frames agreeing on bytes 0..31,
`parse` returns identical counters and identical samples — the tail bytes
32..36 only influence checksum validity, never the decoded output. -/
theorem parse_depends_only_on_first_32_bytes (f g : List Nat)
    (hf : f.length = 37) (hg : g.length = 37)
    (hcf : f.sum % 256 = 0) (hcg : g.sum % 256 = 0)
    (hagree : f.take 32 = g.take 32) :
    parse f = parse g := by
  have hslot : ∀ s, s + 3 ≤ 32 → (f.drop s).take 3 = (g.drop s).take 3 := by
    intro s hs
    have h1 : ((f.take 32).drop s).take 3 = (f.drop s).take 3 := by
      rw [List.drop_take, List.take_take, min_eq_left (by omega)]
    have h2 : ((g.take 32).drop s).take 3 = (g.drop s).take 3 := by
      rw [List.drop_take, List.take_take, min_eq_left (by omega)]
    rw [← h1, ← h2, hagree]
  have hsv : ∀ i, 3 * i + 5 ≤ 32 → slotValue f i = slotValue g i := by
    intro i hi
    rw [slotValue, slotValue, hslot (3 * i + 2) (by omega)]
  have hcnt : f.getD 1 0 = g.getD 1 0 := by
    have h1 : (f.take 32).getD 1 0 = f.getD 1 0 := by
      simp [List.getD, List.get?_eq_getElem?, List.getElem?_take]
    have h2 : (g.take 32).getD 1 0 = g.getD 1 0 := by
      simp [List.getD, List.get?_eq_getElem?, List.getElem?_take]
    rw [← h1, ← h2, hagree]
  have h1f : f[1]? = some (f.getD 1 0) := by
    rw [List.getElem?_eq_getElem (by omega), List.getD_eq_getElem f 0 (by omega)]
  have h1g : g[1]? = some (g.getD 1 0) := by
    rw [List.getElem?_eq_getElem (by omega), List.getD_eq_getElem g 0 (by omega)]
  rw [parse_eq_ok f (f.getD 1 0) (by rw [checksum_eq_sum]; exact hcf) h1f,
    parse_eq_ok g (g.getD 1 0) (by rw [checksum_eq_sum]; exact hcg) h1g,
    hcnt, hsv 0 (by omega), hsv 1 (by omega), hsv 2 (by omega), hsv 3 (by omega),
    hsv 4 (by omega), hsv 5 (by omega), hsv 6 (by omega), hsv 7 (by omega),
    hsv 8 (by omega), hsv 9 (by omega)]

/-- Witness for C10: `goodFrame` and `goodFrameAlt` agree on bytes 0..31,
are both checksum-valid, and parse identically. -/
theorem parse_depends_only_on_first_32_bytes_witness :
    (goodFrame.length = 37 ∧ goodFrameAlt.length = 37 ∧
     goodFrame.sum % 256 = 0 ∧ goodFrameAlt.sum % 256 = 0 ∧
     goodFrame.take 32 = goodFrameAlt.take 32 ∧ goodFrame ≠ goodFrameAlt) ∧
    parse goodFrame = parse goodFrameAlt :=
  ⟨⟨by decide, by decide, by decide, by decide, by decide, by decide⟩,
   parse_depends_only_on_first_32_bytes goodFrame goodFrameAlt
     (by decide) (by decide) (by decide) (by decide) (by decide)⟩


/-- C4: for every 37-byte window, `read` returns the window unchanged when
its first byte is the header marker `0xAA`; when the marker first occurs
at offset `k > 0` it returns bytes `[k, 37)` of the window followed by
`k` freshly pulled bytes (discarding the leading garbage); and when no
byte of the window is the marker it signals failure. -/
theorem read_resynchronizes_window (window device : List Nat)
    (h37 : window.length = 37) :
    (window.headD 0 = HEADER → read (window ++ device) = (some window, device)) ∧
    (∀ k, 0 < k → k < 37 → (∀ i, i < k → window.getD i 0 ≠ HEADER) →
      window.getD k 0 = HEADER →
      read (window ++ device) =
        (some (window.drop k ++ device.take k), device.drop k)) ∧
    ((∀ i, i < 37 → window.getD i 0 ≠ HEADER) →
      (read (window ++ device)).1 = none) := by
  have hlen : window.length = PACKET_SIZE := h37
  refine ⟨fun hh => read_frame window device hlen hh, ?_, ?_⟩
  · intro k hk0 hk37 hbef hat
    match window, h37 with
    | b :: t, h37 =>
      have hb : b ≠ HEADER := by
        have := hbef 0 hk0
        simpa using this
      have hfind : (b :: t).findIdx? (fun byte => byte = HEADER) = some k := by
        apply List.findIdx?_eq_some_iff_getElem.mpr
        refine ⟨by omega, ?_, ?_⟩
        · have : (b :: t)[k] = HEADER := by
            rw [← List.getD_eq_getElem (b :: t) 0 (by omega)]
            exact hat
          simp [this]
        · intro j hj
          have hjl : j < (b :: t).length := by omega
          have hne : (b :: t)[j] ≠ HEADER := by
            rw [← List.getD_eq_getElem (b :: t) 0 hjl]
            exact hbef j hj
          simp [hne]
      rw [read]
      rw [List.take_left' hlen, List.drop_left' hlen]
      simp only [hb, if_false, hfind]
  · intro hno
    match window, h37 with
    | b :: t, h37 =>
      have hb : b ≠ HEADER := by
        have := hno 0 (by omega)
        simpa using this
      have hfind : (b :: t).findIdx? (fun byte => byte = HEADER) = none := by
        apply List.findIdx?_eq_none_iff.mpr
        intro x hx
        obtain ⟨i, hi, hxi⟩ := List.mem_iff_getElem.mp hx
        have : x ≠ HEADER := by
          rw [← hxi, ← List.getD_eq_getElem (b :: t) 0 hi]
          exact hno i (by omega)
        simp [this]
      rw [read]
      rw [List.take_left' hlen, List.drop_left' hlen]
      simp only [hb, if_false, hfind]

/-- Witness for C4 at a window of 5 garbage bytes followed by the first
32 bytes of `goodFrame`, with the device supplying the remaining 5. -/
theorem read_resynchronizes_window_witness :
    ((List.replicate 5 7 ++ goodFrame.take 32).length = 37 ∧
     (List.replicate 5 7 ++ goodFrame.take 32).headD 0 ≠ HEADER ∧
     0 < 5 ∧ (5 : Nat) < 37 ∧
     (List.replicate 5 7 ++ goodFrame.take 32).getD 5 0 = HEADER) ∧
    read ((List.replicate 5 7 ++ goodFrame.take 32) ++ goodFrame.drop 32) =
      (some ((List.replicate 5 7 ++ goodFrame.take 32).drop 5 ++
        (goodFrame.drop 32).take 5), (goodFrame.drop 32).drop 5) :=
  ⟨⟨by decide, by decide, by decide, by decide, by decide⟩,
   ((read_resynchronizes_window (List.replicate 5 7 ++ goodFrame.take 32)
      (goodFrame.drop 32) (by decide)).2.1 5 (by decide) (by decide)
      (by decide) (by decide))⟩


/-- C2: a 37-byte frame parses successfully iff the sum of its 37 bytes
is 0 modulo 256, and otherwise `parse` raises `InvalidChecksum`; in a
cycle containing a corrupted-checksum frame between two valid frames, the
corrupted frame contributes no samples: the decoded packet list is that
of the two valid frames alone, and exactly their samples are emitted. -/
theorem checksum_gates_parse_and_skip (data f1 fb f2 : List Nat) (st : NodeState)
    (hdata : data.length = 37)
    (h1 : f1.length = 37) (hh1 : f1.headD 0 = HEADER) (hc1 : f1.sum % 256 = 0)
    (hb : fb.length = 37) (hhb : fb.headD 0 = HEADER) (hcb : fb.sum % 256 ≠ 0)
    (h2 : f2.length = 37) (hh2 : f2.headD 0 = HEADER) (hc2 : f2.sum % 256 = 0) :
    ((parse data).toOption.isSome = true ↔ data.sum % 256 = 0) ∧
    (data.sum % 256 ≠ 0 → parse data = .error .invalidChecksum) ∧
    oks [f1, fb, f2] = oks [f1, f2] ∧
    (oks [f1, f2]).length = 2 ∧
    update st (f1 ++ (fb ++ f2)) =
      ({ st with packet_count := st.packet_count + 2 },
       some (accum st.time_start st.packet_count (oks [f1, f2]))) := by
  have hfail : ∀ g : List Nat, g.sum % 256 ≠ 0 → parse g = .error .invalidChecksum := by
    intro g hg
    rw [parse, if_pos (by rw [checksum_eq_sum]; exact hg)]
  have hok : ∀ g : List Nat, g.length = 37 → g.sum % 256 = 0 →
      parse g = .ok (g.getD 1 0,
        ⟨[slotValue g 0 * adc 1, slotValue g 3 * adc 1,
          slotValue g 5 * adc 1, slotValue g 8 * adc 1],
         [slotValue g 1 * adc 2, slotValue g 4 * adc 2,
          slotValue g 6 * adc 2, slotValue g 9 * adc 2],
         [slotValue g 2 * adc 3], [slotValue g 7 * adc 4]⟩) := by
    intro g hg hcs
    refine parse_eq_ok g (g.getD 1 0) (by rw [checksum_eq_sum]; exact hcs) ?_
    rw [List.getElem?_eq_getElem (by omega), List.getD_eq_getElem g 0 (by omega)]
  have hoks : oks [f1, fb, f2] = oks [f1, f2] := by
    simp [oks, hok f1 h1 hc1, hok f2 h2 hc2, hfail fb hcb, Except.toOption]
  have hlen2 : (oks [f1, f2]).length = 2 := by
    simp [oks, hok f1 h1 hc1, hok f2 h2 hc2, Except.toOption]
  refine ⟨?_, hfail data, hoks, hlen2, ?_⟩
  · constructor
    · intro hs
      by_contra hcs
      rw [hfail data hcs] at hs
      simp [Except.toOption] at hs
    · intro hcs
      rw [hok data hdata hcs]
      rfl
  · have hflat : f1 ++ (fb ++ f2) = [f1, fb, f2].flatten := by simp
    rw [hflat, update_frames st [f1, fb, f2] ?_]
    · rw [hoks, hlen2, if_neg (by omega)]
    · intro f hf
      simp only [List.mem_cons, List.not_mem_nil, or_false] at hf
      rcases hf with rfl | rfl | rfl
      · exact ⟨h1, hh1⟩
      · exact ⟨hb, hhb⟩
      · exact ⟨h2, hh2⟩

/-- Witness for C2: `goodFrame`, then `badFrame` (corrupted checksum),
then `goodFrame7`, starting from packet count 0 and epoch 0. -/
theorem checksum_gates_parse_and_skip_witness :
    (goodFrame.length = 37 ∧ goodFrame.headD 0 = HEADER ∧ goodFrame.sum % 256 = 0 ∧
     badFrame.length = 37 ∧ badFrame.headD 0 = HEADER ∧ badFrame.sum % 256 ≠ 0 ∧
     goodFrame7.length = 37 ∧ goodFrame7.headD 0 = HEADER ∧ goodFrame7.sum % 256 = 0) ∧
    (((parse goodFrame).toOption.isSome = true ↔ goodFrame.sum % 256 = 0) ∧
     (goodFrame.sum % 256 ≠ 0 → parse goodFrame = .error .invalidChecksum) ∧
     oks [goodFrame, badFrame, goodFrame7] = oks [goodFrame, goodFrame7] ∧
     (oks [goodFrame, goodFrame7]).length = 2 ∧
     update ⟨0, 0⟩ (goodFrame ++ (badFrame ++ goodFrame7)) =
       ({ (⟨0, 0⟩ : NodeState) with packet_count := (⟨0, 0⟩ : NodeState).packet_count + 2 },
        some (accum (⟨0, 0⟩ : NodeState).time_start (⟨0, 0⟩ : NodeState).packet_count
          (oks [goodFrame, goodFrame7])))) :=
  ⟨⟨by decide, by decide, by decide, by decide, by decide, by decide,
    by decide, by decide, by decide⟩,
   checksum_gates_parse_and_skip goodFrame goodFrame badFrame goodFrame7 ⟨0, 0⟩
     (by decide) (by decide) (by decide) (by decide) (by decide) (by decide)
     (by decide) (by decide) (by decide) (by decide)⟩


/-- C3 counterexample: the high-rate step is `int(1e9/1024) = 976562` ns,
not exactly `1/1024 s = 976562.5` ns.  With epoch 0 and packet count 0,
the first high-rate timestamp of the first decoded packet is
`4 * 976562 = 3906248` ns, whereas the claim's
`time_start + packet_count * 4 * (1/1024 s)` is `3906250` ns. -/
theorem highrate_step_not_exact_counterexample :
    (((processPacket ⟨0, 0⟩ emptyData goodFrame).2.index1024.getD 0 0 : ℚ)) ≠
      0 + (1 * 4) * ((1000000000 : ℚ) / 1024) := by
  have h : (processPacket ⟨0, 0⟩ emptyData goodFrame).2.index1024.getD 0 0 = 3906248 := by
    rfl
  rw [h]
  norm_num

/-- C3 amended: after each successfully decoded packet `packet_count` is
incremented, and then the packet's low-rate timestamp is
`time_start + packet_count * 3906250` ns — `3906250 ns` being exactly
`1/256 s` — while its four high-rate timestamps are evenly spaced with
step `976562 ns = ⌊10⁹/1024⌋ ns` (the 1/1024 s period truncated to whole
nanoseconds, not exactly `1/1024 s`), starting at
`time_start + packet_count * 4 * 976562` ns. -/
theorem packet_timestamps (st : NodeState) (d : CycleData) (f : List Nat)
    (hf : 2 ≤ f.length) (hcs : f.sum % 256 = 0) :
    (processPacket st d f).1.packet_count = st.packet_count + 1 ∧
    (processPacket st d f).1.time_start = st.time_start ∧
    (processPacket st d f).2.index256 =
      d.index256 ++ [st.time_start + 3906250 * ((st.packet_count + 1 : Nat) : Int)] ∧
    (processPacket st d f).2.index1024 =
      d.index1024 ++
        [st.time_start + 976562 * ((st.packet_count + 1 : Nat) : Int) * 4,
         st.time_start + 976562 * ((st.packet_count + 1 : Nat) : Int) * 4 + 976562,
         st.time_start + 976562 * ((st.packet_count + 1 : Nat) : Int) * 4 + 1953124,
         st.time_start + 976562 * ((st.packet_count + 1 : Nat) : Int) * 4 + 2929686] ∧
    (delta256 : ℚ) = 1000000000 / 256 ∧
    (delta1024 : ℚ) ≠ 1000000000 / 1024 := by
  have h1 : f[1]? = some (f.getD 1 0) := by
    rw [List.getElem?_eq_getElem (by omega), List.getD_eq_getElem f 0 (by omega)]
  have hp := parse_eq_ok f (f.getD 1 0) (by rw [checksum_eq_sum]; exact hcs) h1
  rw [processPacket_ok st d f _ hp]
  have hhi : hi4 st.time_start (st.packet_count + 1) =
      [st.time_start + 976562 * ((st.packet_count + 1 : Nat) : Int) * 4,
       st.time_start + 976562 * ((st.packet_count + 1 : Nat) : Int) * 4 + 976562,
       st.time_start + 976562 * ((st.packet_count + 1 : Nat) : Int) * 4 + 1953124,
       st.time_start + 976562 * ((st.packet_count + 1 : Nat) : Int) * 4 + 2929686] := by
    rw [hi4, delta1024_eq, show List.range 4 = [0, 1, 2, 3] from rfl]
    simp only [List.map_cons, List.map_nil]
    norm_num
  refine ⟨rfl, rfl, ?_, ?_, by rw [delta256_eq]; norm_num, by rw [delta1024_eq]; norm_num⟩
  · simp [appendData, pkt, lo1, delta256_eq]
  · simp [appendData, pkt, hhi]

/-- Witness for the amended C3 at `goodFrame`, epoch 0, packet count 0. -/
theorem packet_timestamps_witness :
    (2 ≤ goodFrame.length ∧ goodFrame.sum % 256 = 0) ∧
    ((processPacket ⟨0, 0⟩ emptyData goodFrame).1.packet_count =
        (⟨0, 0⟩ : NodeState).packet_count + 1 ∧
     (processPacket ⟨0, 0⟩ emptyData goodFrame).1.time_start =
        (⟨0, 0⟩ : NodeState).time_start ∧
     (processPacket ⟨0, 0⟩ emptyData goodFrame).2.index256 =
       emptyData.index256 ++ [(⟨0, 0⟩ : NodeState).time_start +
         3906250 * (((⟨0, 0⟩ : NodeState).packet_count + 1 : Nat) : Int)] ∧
     (processPacket ⟨0, 0⟩ emptyData goodFrame).2.index1024 =
       emptyData.index1024 ++
         [(⟨0, 0⟩ : NodeState).time_start +
            976562 * (((⟨0, 0⟩ : NodeState).packet_count + 1 : Nat) : Int) * 4,
          (⟨0, 0⟩ : NodeState).time_start +
            976562 * (((⟨0, 0⟩ : NodeState).packet_count + 1 : Nat) : Int) * 4 + 976562,
          (⟨0, 0⟩ : NodeState).time_start +
            976562 * (((⟨0, 0⟩ : NodeState).packet_count + 1 : Nat) : Int) * 4 + 1953124,
          (⟨0, 0⟩ : NodeState).time_start +
            976562 * (((⟨0, 0⟩ : NodeState).packet_count + 1 : Nat) : Int) * 4 + 2929686] ∧
     (delta256 : ℚ) = 1000000000 / 256 ∧
     (delta1024 : ℚ) ≠ 1000000000 / 1024) :=
  ⟨⟨by decide, by decide⟩,
   packet_timestamps ⟨0, 0⟩ emptyData goodFrame (by decide) (by decide)⟩


lemma read_noHeader (g r : List Nat) (hg37 : g.length = PACKET_SIZE)
    (hne : g.contains HEADER = false) : read (g ++ r) = (none, r) := by
  match g, hg37 with
  | b :: t, hg37 =>
    have hb : b ≠ HEADER := by
      intro hEq
      rw [List.contains_cons] at hne
      simp [hEq] at hne
    have hfind : (b :: t).findIdx? (fun byte => byte = HEADER) = none := by
      apply List.findIdx?_eq_none_iff.mpr
      intro x hx
      have : x ≠ HEADER := by
        intro hEq
        rw [← hEq] at hne
        rw [List.contains_eq_any_beq] at hne
        have : (b :: t).any (fun y => x == y) = true :=
          List.any_eq_true.mpr ⟨x, hx, by simp⟩
        rw [this] at hne
        exact Bool.true_eq_false.mp hne
      simp [this]
    rw [read, List.take_left' hg37, List.drop_left' hg37]
    simp only [hb, if_false, hfind]

/-- C5 counterexample: a cycle whose stream is a valid frame followed by
a 37-byte window with no header marker anywhere still emits — the
synchronization failure does not abort the cycle, and the earlier valid
frame's samples are emitted at the end of the cycle, refuting the claim
that nothing is emitted. -/
theorem desync_does_not_abort_counterexample :
    noHeaderWindow.contains HEADER = false ∧
    (update ⟨0, 0⟩ (goodFrame ++ noHeaderWindow)).2.isSome = true :=
  ⟨by decide, by decide⟩

/-- C5 amended: when `read` finds no header marker in a window, that
window alone is discarded (`if packet:` skips it) and the cycle continues;
packets decoded from other windows of the same cycle are still emitted at
the end of the cycle. -/
theorem desync_skips_window_only (st : NodeState) (f g : List Nat)
    (hf37 : f.length = 37) (hfh : f.headD 0 = HEADER) (hfc : f.sum % 256 = 0)
    (hg37 : g.length = 37) (hgh : g.contains HEADER = false) :
    (update st (f ++ g)).2.isSome = true ∧
    (update st (f ++ g)).1.packet_count = st.packet_count + 1 := by
  have h1 : f[1]? = some (f.getD 1 0) := by
    rw [List.getElem?_eq_getElem (by omega), List.getD_eq_getElem f 0 (by omega)]
  have hp := parse_eq_ok f (f.getD 1 0) (by rw [checksum_eq_sum]; exact hfc) h1
  have hflen : (f ++ g).length = 74 := by simp [hf37, hg37]
  have hread : read g = (none, []) := by
    have h := read_noHeader g [] hg37 hgh
    rwa [List.append_nil] at h
  have hloop : updateLoop 2 st emptyData (f ++ g) =
      ({ st with packet_count := st.packet_count + 1 },
       appendData emptyData (pkt st.time_start (st.packet_count + 1)
         (f.getD 1 0,
          ⟨[slotValue f 0 * adc 1, slotValue f 3 * adc 1,
            slotValue f 5 * adc 1, slotValue f 8 * adc 1],
           [slotValue f 1 * adc 2, slotValue f 4 * adc 2,
            slotValue f 6 * adc 2, slotValue f 9 * adc 2],
           [slotValue f 2 * adc 3], [slotValue f 7 * adc 4]⟩))) := by
    show updateLoop (1 + 1) st emptyData (f ++ g) = _
    rw [updateLoop, read_frame f g hf37 hfh]
    show updateLoop 1 (processPacket st emptyData f).1
      (processPacket st emptyData f).2 g = _
    rw [processPacket_ok st emptyData f _ hp]
    show updateLoop (0 + 1) _ _ g = _
    rw [updateLoop, hread]
    rfl
  rw [update]
  simp only [hflen]
  rw [show (74 + PACKET_SIZE - 1) / PACKET_SIZE = 2 from rfl, hloop, empty_appendData]
  rw [if_pos (by simp [pkt, hi4_length])]
  exact ⟨rfl, rfl⟩


/-- Witness for the amended C5: `goodFrame` followed by a header-free
window still produces an emission and a packet-count increment. -/
theorem desync_skips_window_only_witness :
    (goodFrame.length = 37 ∧ goodFrame.headD 0 = HEADER ∧
     goodFrame.sum % 256 = 0 ∧ noHeaderWindow.length = 37 ∧
     noHeaderWindow.contains HEADER = false) ∧
    ((update ⟨0, 0⟩ (goodFrame ++ noHeaderWindow)).2.isSome = true ∧
     (update ⟨0, 0⟩ (goodFrame ++ noHeaderWindow)).1.packet_count =
       (⟨0, 0⟩ : NodeState).packet_count + 1) :=
  ⟨⟨by decide, by decide, by decide, by decide, by decide⟩,
   desync_skips_window_only ⟨0, 0⟩ goodFrame noHeaderWindow
     (by decide) (by decide) (by decide) (by decide) (by decide)⟩


lemma parse_ok_sample_lengths (f : List Nat) (p : Nat × Samples)
    (hp : parse f = .ok p) :
    p.2.s1.length = 4 ∧ p.2.s2.length = 4 ∧ p.2.s3.length = 1 ∧ p.2.s4.length = 1 := by
  by_cases hcs : checksum f % 256 = 0
  · match h1 : f[1]? with
    | none =>
        rw [parse, if_neg (by simp [hcs]), h1] at hp
        cases hp
    | some c =>
        rw [parse_eq_ok f c hcs h1] at hp
        cases hp
        simp
  · rw [parse, if_pos (by simp [hcs])] at hp
    cases hp

lemma mem_oks (frames : List (List Nat)) (p : Nat × Samples)
    (hp : p ∈ oks frames) : ∃ f ∈ frames, parse f = .ok p := by
  obtain ⟨f, hf, hpf⟩ := List.mem_filterMap.mp hp
  refine ⟨f, hf, ?_⟩
  match hq : parse f with
  | .ok q => rw [hq] at hpf; simp [Except.toOption] at hpf; rw [hpf]
  | .error e => rw [hq] at hpf; simp [Except.toOption] at hpf

lemma length_flatMap_const {α β : Type} (l : List α) (g : α → List β) (n : Nat)
    (h : ∀ x ∈ l, (g x).length = n) : (l.flatMap g).length = n * l.length := by
  induction l with
  | nil => simp
  | cons x xs ih =>
      rw [List.flatMap_cons, List.length_append, h x (List.mem_cons_self x xs),
        ih (fun y hy => h y (List.mem_cons_of_mem x hy)), List.length_cons]
      ring

/-- C6: a processing cycle over header-aligned 37-byte frames that decodes
`k ≥ 1` packets emits exactly once — both batches together in one `some` —
with the low-rate batch holding `k` samples (one counter, channel-3 and
channel-4 sample and timestamp per packet) and the high-rate batch `4*k`
samples, each packet's counter appearing 4 times consecutively in packet
order; a cycle that decodes zero packets emits nothing. -/
theorem cycle_emits_both_batches (st : NodeState) (frames : List (List Nat))
    (h : ∀ f ∈ frames, f.length = 37 ∧ f.headD 0 = HEADER) :
    ((oks frames).length = 0 → (update st frames.flatten).2 = none) ∧
    (0 < (oks frames).length → (update st frames.flatten).2 =
        some (accum st.time_start st.packet_count (oks frames))) ∧
    (accum st.time_start st.packet_count (oks frames)).counter1024 =
      (oks frames).flatMap (fun p => List.replicate 4 p.1) ∧
    (accum st.time_start st.packet_count (oks frames)).counter256 =
      (oks frames).map (fun p => p.1) ∧
    (accum st.time_start st.packet_count (oks frames)).counter1024.length =
      4 * (oks frames).length ∧
    (accum st.time_start st.packet_count (oks frames)).index1024.length =
      4 * (oks frames).length ∧
    (accum st.time_start st.packet_count (oks frames)).ch1.length =
      4 * (oks frames).length ∧
    (accum st.time_start st.packet_count (oks frames)).ch2.length =
      4 * (oks frames).length ∧
    (accum st.time_start st.packet_count (oks frames)).counter256.length =
      (oks frames).length ∧
    (accum st.time_start st.packet_count (oks frames)).index256.length =
      (oks frames).length ∧
    (accum st.time_start st.packet_count (oks frames)).ch3.length =
      (oks frames).length ∧
    (accum st.time_start st.packet_count (oks frames)).ch4.length =
      (oks frames).length := by
  have hupd := update_frames st frames h
  refine ⟨?_, ?_, rfl, rfl, ?_, accum_index1024_length _ _ _, ?_, ?_, ?_,
    accum_index256_length _ _ _, ?_, ?_⟩
  · intro hk
    rw [hupd, if_pos hk]
  · intro hk
    rw [hupd, if_neg (by omega)]
  · simp only [accum]
    rw [length_flatMap_const _ _ 4 (fun p _ => by simp)]
  · simp only [accum]
    rw [length_flatMap_const _ _ 4
      (fun p hp => by
        obtain ⟨f, _, hpf⟩ := mem_oks frames p hp
        exact (parse_ok_sample_lengths f p hpf).1)]
  · simp only [accum]
    rw [length_flatMap_const _ _ 4
      (fun p hp => by
        obtain ⟨f, _, hpf⟩ := mem_oks frames p hp
        exact (parse_ok_sample_lengths f p hpf).2.1)]
  · simp [accum]
  · simp only [accum]
    rw [length_flatMap_const _ _ 1
      (fun p hp => by
        obtain ⟨f, _, hpf⟩ := mem_oks frames p hp
        exact (parse_ok_sample_lengths f p hpf).2.2.1), one_mul]
  · simp only [accum]
    rw [length_flatMap_const _ _ 1
      (fun p hp => by
        obtain ⟨f, _, hpf⟩ := mem_oks frames p hp
        exact (parse_ok_sample_lengths f p hpf).2.2.2), one_mul]


/-- Witness for C6: the two-frame cycle `[goodFrame, goodFrame7]` decodes
2 packets and emits both batches once. -/
theorem cycle_emits_both_batches_witness :
    ((∀ f ∈ [goodFrame, goodFrame7], f.length = 37 ∧ f.headD 0 = HEADER) ∧
     0 < (oks [goodFrame, goodFrame7]).length) ∧
    (update ⟨0, 0⟩ ([goodFrame, goodFrame7]).flatten).2 =
      some (accum 0 0 (oks [goodFrame, goodFrame7])) :=
  ⟨⟨by decide, by decide⟩,
   (cycle_emits_both_batches ⟨0, 0⟩ [goodFrame, goodFrame7] (by decide)).2.1 (by decide)⟩


lemma encodeFrame_checksum (c : Nat) (v1 v2 v3 v4 : Int) :
    (encodeFrame c v1 v2 v3 v4).sum % 256 = 0 := by
  simp only [encodeFrame]
  generalize ([HEADER, c] ++ toBytes3 v1 ++ toBytes3 v2 ++ toBytes3 v3 ++
    toBytes3 v1 ++ toBytes3 v2 ++ toBytes3 v1 ++ toBytes3 v2 ++
    toBytes3 v4 ++ toBytes3 v1 ++ toBytes3 v2 ++ [0, 0, 0] : List Nat) = B
  rw [List.sum_append, checksum_eq_sum]
  simp only [List.sum_cons, List.sum_nil]
  omega

set_option maxHeartbeats 2000000 in
/-- C7: encoding a synthetic packet (counter `c`, in-range raw channel
values `v1..v4`) into a 37-byte frame following the wire layout — slots in
channel order `1,2,3,1,2,1,2,4,1,2`, 3-byte big-endian two's complement,
checksum bringing the byte sum to 0 mod 256 — and then decoding it with
`parse` recovers the counter, four copies each of `v1` and `v2` scaled by
the channel-1/2 factor, and one copy each of `v3` and `v4` scaled by the
channel-3/4 factor (exactly, in the rational model of the scales). -/
theorem encode_parse_roundtrip (c : Nat) (v1 v2 v3 v4 : Int) (hc : c < 256)
    (h1l : -(2 ^ 23) ≤ v1) (h1u : v1 < 2 ^ 23)
    (h2l : -(2 ^ 23) ≤ v2) (h2u : v2 < 2 ^ 23)
    (h3l : -(2 ^ 23) ≤ v3) (h3u : v3 < 2 ^ 23)
    (h4l : -(2 ^ 23) ≤ v4) (h4u : v4 < 2 ^ 23) :
    (encodeFrame c v1 v2 v3 v4).length = 37 ∧
    (∀ b ∈ encodeFrame c v1 v2 v3 v4, b < 256) ∧
    parse (encodeFrame c v1 v2 v3 v4) = .ok (c,
      { s1 := List.replicate 4 ((v1 : ℚ) * (-(1184481006 : ℚ) / 100000000000)),
        s2 := List.replicate 4 ((v2 : ℚ) * (-(1184481006 : ℚ) / 100000000000)),
        s3 := [(v3 : ℚ) * (-(244140625 : ℚ) / 1000000000000)],
        s4 := [(v4 : ℚ) * (-(244140625 : ℚ) / 1000000000000)] }) := by
  refine ⟨rfl, ?_, ?_⟩
  · intro b hb
    simp only [encodeFrame, List.mem_append, List.mem_cons, List.not_mem_nil,
      or_false] at hb
    casesm* _ ∨ _
    all_goals first
      | (rename_i h; exact toBytes3_bytes _ b h)
      | (rename_i h; subst h; first | decide | exact hc | omega)
  have hcs : checksum (encodeFrame c v1 v2 v3 v4) % 256 = 0 := by
    rw [checksum_eq_sum]; exact encodeFrame_checksum c v1 v2 v3 v4
  have h1 : (encodeFrame c v1 v2 v3 v4)[1]? = some c := rfl
  rw [parse_eq_ok (encodeFrame c v1 v2 v3 v4) c hcs h1]
  rw [show slotValue (encodeFrame c v1 v2 v3 v4) 0 = fromBytesSigned (toBytes3 v1) from rfl,
    show slotValue (encodeFrame c v1 v2 v3 v4) 1 = fromBytesSigned (toBytes3 v2) from rfl,
    show slotValue (encodeFrame c v1 v2 v3 v4) 2 = fromBytesSigned (toBytes3 v3) from rfl,
    show slotValue (encodeFrame c v1 v2 v3 v4) 3 = fromBytesSigned (toBytes3 v1) from rfl,
    show slotValue (encodeFrame c v1 v2 v3 v4) 4 = fromBytesSigned (toBytes3 v2) from rfl,
    show slotValue (encodeFrame c v1 v2 v3 v4) 5 = fromBytesSigned (toBytes3 v1) from rfl,
    show slotValue (encodeFrame c v1 v2 v3 v4) 6 = fromBytesSigned (toBytes3 v2) from rfl,
    show slotValue (encodeFrame c v1 v2 v3 v4) 7 = fromBytesSigned (toBytes3 v4) from rfl,
    show slotValue (encodeFrame c v1 v2 v3 v4) 8 = fromBytesSigned (toBytes3 v1) from rfl,
    show slotValue (encodeFrame c v1 v2 v3 v4) 9 = fromBytesSigned (toBytes3 v2) from rfl,
    fromBytesSigned_toBytes3 v1 h1l h1u, fromBytesSigned_toBytes3 v2 h2l h2u,
    fromBytesSigned_toBytes3 v3 h3l h3u, fromBytesSigned_toBytes3 v4 h4l h4u]
  norm_num [adc, List.replicate]

/-- Witness for C7 at counter 5 and raw values `(1, -2, 3, -4)`. -/
theorem encode_parse_roundtrip_witness :
    ((5 : Nat) < 256 ∧
     -(2 ^ 23) ≤ (1 : Int) ∧ (1 : Int) < 2 ^ 23 ∧
     -(2 ^ 23) ≤ (-2 : Int) ∧ (-2 : Int) < 2 ^ 23 ∧
     -(2 ^ 23) ≤ (3 : Int) ∧ (3 : Int) < 2 ^ 23 ∧
     -(2 ^ 23) ≤ (-4 : Int) ∧ (-4 : Int) < 2 ^ 23) ∧
    ((encodeFrame 5 1 (-2) 3 (-4)).length = 37 ∧
     (∀ b ∈ encodeFrame 5 1 (-2) 3 (-4), b < 256) ∧
     parse (encodeFrame 5 1 (-2) 3 (-4)) = .ok (5,
       { s1 := List.replicate 4 ((1 : ℚ) * (-(1184481006 : ℚ) / 100000000000)),
         s2 := List.replicate 4 (((-2 : Int) : ℚ) * (-(1184481006 : ℚ) / 100000000000)),
         s3 := [(3 : ℚ) * (-(244140625 : ℚ) / 1000000000000)],
         s4 := [((-4 : Int) : ℚ) * (-(244140625 : ℚ) / 1000000000000)] })) :=
  ⟨⟨by decide, by decide, by decide, by decide, by decide, by decide, by decide,
    by decide, by decide⟩,
   encode_parse_roundtrip 5 1 (-2) 3 (-4) (by decide) (by decide) (by decide)
     (by decide) (by decide) (by decide) (by decide) (by decide) (by decide)⟩


lemma accum_index1024_closed (t : Int) (pc : Nat) : ∀ k : Nat,
    (List.range k).flatMap (fun j => hi4 t (pc + j + 1)) =
      (List.range (4 * k)).map
        (fun m : Nat => t + delta1024 * ((4 * (pc + 1) + m : Nat) : Int)) := by
  intro k
  induction k with
  | zero => simp
  | succ k ih =>
      rw [List.range_succ, List.flatMap_append, ih, List.flatMap_cons,
        List.flatMap_nil, List.append_nil,
        show 4 * (k + 1) = 4 * k + 4 by ring, List.range_add, List.map_append,
        List.map_map]
      congr 1
      rw [hi4]
      apply List.map_congr_left
      intro i _
      simp only [Function.comp_apply]
      push_cast
      ring

lemma getD_map_range (g : Nat → Int) (n i : Nat) (h : i < n) :
    ((List.range n).map g).getD i 0 = g i := by
  rw [List.getD_eq_getElem _ 0 (by simpa using h)]
  simp

/-- C8: over a cycle of header-aligned frames, both emitted timestamp
sequences are strictly increasing with constant spacing — 976562 ns
between consecutive high-rate samples (the same within a packet and
across packet boundaries) and 3906250 ns between consecutive low-rate
samples. -/
theorem timestamps_monotone_constant_spacing (st : NodeState)
    (frames : List (List Nat))
    (h : ∀ f ∈ frames, f.length = 37 ∧ f.headD 0 = HEADER) :
    (∀ i, i + 1 < ((update st frames.flatten).2.getD emptyData).index1024.length →
      ((update st frames.flatten).2.getD emptyData).index1024.getD (i + 1) 0 -
        ((update st frames.flatten).2.getD emptyData).index1024.getD i 0 = 976562 ∧
      ((update st frames.flatten).2.getD emptyData).index1024.getD i 0 <
        ((update st frames.flatten).2.getD emptyData).index1024.getD (i + 1) 0) ∧
    (∀ i, i + 1 < ((update st frames.flatten).2.getD emptyData).index256.length →
      ((update st frames.flatten).2.getD emptyData).index256.getD (i + 1) 0 -
        ((update st frames.flatten).2.getD emptyData).index256.getD i 0 = 3906250 ∧
      ((update st frames.flatten).2.getD emptyData).index256.getD i 0 <
        ((update st frames.flatten).2.getD emptyData).index256.getD (i + 1) 0) := by
  rw [update_frames st frames h]
  by_cases hk : (oks frames).length = 0
  · rw [if_pos hk]
    constructor <;> intro i hi <;> simp [emptyData] at hi
  · rw [if_neg hk]
    simp only [Option.getD_some]
    constructor
    · intro i hi
      rw [accum_index1024_length] at hi
      simp only [accum, accum_index1024_closed] at hi ⊢
      rw [getD_map_range _ _ _ (by omega), getD_map_range _ _ _ (by omega)]
      rw [delta1024_eq]
      push_cast
      constructor
      · ring
      · have : (4 : Int) * (st.packet_count + 1) + i <
            4 * (st.packet_count + 1) + (i + 1) := by omega
        nlinarith [this]
    · intro i hi
      rw [accum_index256_length] at hi
      simp only [accum] at hi ⊢
      rw [getD_map_range _ _ _ (by omega), getD_map_range _ _ _ (by omega)]
      simp only [lo1, delta256_eq]
      push_cast
      constructor
      · ring
      · nlinarith [show ((st.packet_count : Int) + i + 1) <
          (st.packet_count + (i + 1) + 1) by omega]


/-- Witness for C8 on the two-frame cycle `[goodFrame, goodFrame7]`. -/
theorem timestamps_monotone_constant_spacing_witness :
    (∀ f ∈ [goodFrame, goodFrame7], f.length = 37 ∧ f.headD 0 = HEADER) ∧
    ((∀ i, i + 1 <
        ((update ⟨0, 0⟩ ([goodFrame, goodFrame7]).flatten).2.getD emptyData).index1024.length →
      ((update ⟨0, 0⟩ ([goodFrame, goodFrame7]).flatten).2.getD emptyData).index1024.getD (i + 1) 0 -
        ((update ⟨0, 0⟩ ([goodFrame, goodFrame7]).flatten).2.getD emptyData).index1024.getD i 0 = 976562 ∧
      ((update ⟨0, 0⟩ ([goodFrame, goodFrame7]).flatten).2.getD emptyData).index1024.getD i 0 <
        ((update ⟨0, 0⟩ ([goodFrame, goodFrame7]).flatten).2.getD emptyData).index1024.getD (i + 1) 0) ∧
     (∀ i, i + 1 <
        ((update ⟨0, 0⟩ ([goodFrame, goodFrame7]).flatten).2.getD emptyData).index256.length →
      ((update ⟨0, 0⟩ ([goodFrame, goodFrame7]).flatten).2.getD emptyData).index256.getD (i + 1) 0 -
        ((update ⟨0, 0⟩ ([goodFrame, goodFrame7]).flatten).2.getD emptyData).index256.getD i 0 = 3906250 ∧
      ((update ⟨0, 0⟩ ([goodFrame, goodFrame7]).flatten).2.getD emptyData).index256.getD i 0 <
        ((update ⟨0, 0⟩ ([goodFrame, goodFrame7]).flatten).2.getD emptyData).index256.getD (i + 1) 0)) :=
  ⟨by decide,
   timestamps_monotone_constant_spacing ⟨0, 0⟩ [goodFrame, goodFrame7] (by decide)⟩

end PL4
